import Mathlib

/-!
Verification of the VortexAI backend core (src/main.py) against its
natural-language specification.

Modelling conventions:
* Python floats are modelled exactly over the rationals `ℚ`.
* `Optional[float]` fields become `Option ℚ`; `Optional[str]` becomes
  `Option String`.
* Python truthiness of a float (`if price and ...`) is modelled as
  "present and nonzero"; truthiness of a string as "present and nonempty".
* Timestamps are rationals (seconds since the epoch).  The source reads the
  wall clock through `now_utc()`; the embedding makes that read explicit by
  passing the clock value `now : ℚ` as an argument.
* `datetime` columns that may arrive as unparsable strings are modelled as
  `Option ℚ`: `none` covers both an absent value and a parse failure, which
  is exactly how the source collapses the two cases.
* Database and network effects are modelled by explicit oracles (booleans
  saying whether each storage write succeeds, an inductive describing the
  external scoring outcome, flags for the SMTP transport).
-/

namespace VortexAI

/-- Row of the `deals` table as consumed by `compute_match` and the ingest
sweep (src/main.py lines 226-293, 485-516). -/
structure DealRow where
  category : Option String
  country : Option String
  region : Option String
  price : Option ℚ
  posted_at : Option ℚ
  deriving Repr, DecidableEq

/-- Row of the `buyers` table as selected by the ingest sweep
(src/main.py line 509). -/
structure BuyerRow where
  buyer_id : Nat
  email : String
  countries : List String
  regions : List String
  categories : List String
  budget_min : Option ℚ
  budget_max : Option ℚ
  deriving Repr, DecidableEq

/-- The fixed weight table of `compute_match` (src/main.py line 229). -/
def weights : List (String × ℚ) :=
  [("budget", 40/100), ("location", 30/100), ("category", 20/100), ("recency", 10/100)]

/-- The breakdown dictionary returned by `compute_match`
(src/main.py lines 285-291). -/
structure Breakdown where
  budget : ℚ
  location : ℚ
  category : ℚ
  recency : ℚ
  weights : List (String × ℚ)
  deriving Repr, DecidableEq

/-- The Python builtin `min` on two floats, modelled over `ℚ`. -/
def pymin (a b : ℚ) : ℚ := if a ≤ b then a else b

/-- The Python builtin `max` on two floats, modelled over `ℚ`. -/
def pymax (a b : ℚ) : ℚ := if b ≤ a then a else b

/-- Python float truthiness: an optional float is truthy iff present and
nonzero. -/
def truthyQ : Option ℚ → Bool
  | none => false
  | some p => p ≠ 0

/-- Python string truthiness: an optional string is truthy iff present and
nonempty. -/
def truthyS : Option String → Bool
  | none => false
  | some s => s ≠ ""

/-- `compute_match` (src/main.py lines 226-293), the matching engine.
`now` is the value of `now_utc()` at the moment of the call: the source
reads the clock inside the recency branch, so the clock is an explicit
argument here. -/
def compute_match (deal_row : DealRow) (buyer_row : BuyerRow) (now : ℚ) :
    ℚ × Breakdown :=
  -- Category
  let cat_score : ℚ :=
    match deal_row.category with
    | some c => if c ∈ buyer_row.categories then 1 else 0
    | none => 0
  -- Location
  let loc : ℚ :=
    (if truthyS deal_row.country ∧ deal_row.country.getD "" ∈ buyer_row.countries
      then 6/10 else 0) +
    (if truthyS deal_row.region ∧ deal_row.region.getD "" ∈ buyer_row.regions
      then 4/10 else 0)
  let location_score : ℚ := pymin 1 loc
  -- Budget
  let price := deal_row.price
  let bmin := buyer_row.budget_min
  let bmax := buyer_row.budget_max
  let budget_score : ℚ :=
    if truthyQ price ∧ bmin.isSome ∧ bmax.isSome ∧
        bmin.getD 0 ≤ price.getD 0 ∧ price.getD 0 ≤ bmax.getD 0 then 1
    else if truthyQ price ∧ bmax.isSome ∧ price.getD 0 ≤ bmax.getD 0 then 6/10
    else 3/10
  -- Recency
  let recency_score : ℚ :=
    match deal_row.posted_at with
    | none => 1/2
    | some t =>
      let age_hours := pymax 0 ((now - t) / 3600)
      if age_hours ≤ 24 then 1
      else if age_hours ≤ 72 then 8/10
      else if age_hours ≤ 168 then 6/10
      else 4/10
  let final : ℚ :=
    40/100 * budget_score + 30/100 * location_score +
    20/100 * cat_score + 10/100 * recency_score
  (pymax 0 (pymin 1 final),
   { budget := budget_score, location := location_score,
     category := cat_score, recency := recency_score, weights := weights })

/-- The deal of the worked matching example in the spec: price 150000,
country US, region CA, category wholesale, posted at time 0. -/
def exampleDeal : DealRow :=
  { category := some "wholesale", country := some "US", region := some "CA",
    price := some 150000, posted_at := some 0 }

/-- The buyer of the worked matching example in the spec. -/
def exampleBuyer : BuyerRow :=
  { buyer_id := 1, email := "b@example.com", countries := ["US"],
    regions := ["NY"], categories := ["wholesale"],
    budget_min := some 100000, budget_max := some 200000 }

/-- The `DealIngest` payload (src/main.py lines 87-102) restricted to the
fields the embedded code paths read.  `currency`, `country`, `region`,
`city`, `postal_code`, `images` and `raw` only flow into database
parameters and the external prompt, which the oracles model, so they are
omitted.  `safe_float` and datetime parsing are absorbed into the
`Option ℚ` typing of `price` and `posted_at`. -/
structure DealIngest where
  category : String
  source : Option String
  source_url : String
  source_uid : Option String
  title : Option String
  description : Option String
  price : Option ℚ
  posted_at : Option ℚ
  deriving Repr, DecidableEq

/-- `normalize_str` (src/main.py lines 143-144): `(x or "").strip().lower()`.
`String.trim` models `.strip()` and `String.toLower` models `.lower()`
(the inputs of interest are ASCII). -/
def normalize_str (x : Option String) : String := ((x.getD "").trim).toLower

/-- Python substring membership `needle in haystack` on the character
lists of the two strings. -/
def sub_occurs (needle : List Char) : List Char → Bool
  | [] => needle.isEmpty
  | c :: rest => needle.isPrefixOf (c :: rest) || sub_occurs needle rest

/-- `kw in text_blob` (src/main.py line 163). -/
def contains_kw (blob kw : String) : Bool := sub_occurs kw.data blob.data

/-- The urgency and discount keyword list of the heuristic scorer
(src/main.py line 162). -/
def keywords : List String :=
  ["urgent", "must sell", "motivated", "discount", "below market",
   "wholesale", "liquidation"]

/-- The body of the keyword loop of the heuristic scorer
(src/main.py lines 162-165): one iteration updates the running
(score, reasons) pair. -/
def kwStep (blob : String) (acc : ℚ × List String) (kw : String) :
    ℚ × List String :=
  if contains_kw blob kw then (acc.1 + 8/100, acc.2 ++ ["keyword:" ++ kw])
  else acc

/-- The lower-cased title-plus-description blob the heuristic scans
(src/main.py lines 157-159); the source joins the two normalized parts
with a single space. -/
def text_blob (deal : DealIngest) : String :=
  normalize_str deal.title ++ " " ++ normalize_str deal.description

/-- The local fallback scorer `heuristic` nested in `score_deal_ai`
(src/main.py lines 154-183).  A pure function of the deal payload and of
the clock value `now` read through `now_utc()`. -/
def heuristic (deal : DealIngest) (now : ℚ) : ℚ × String :=
  let acc0 : ℚ × List String := (30/100, [])
  let acc1 := keywords.foldl (kwStep (text_blob deal)) acc0
  let acc2 :=
    match deal.price with
    | some p => if 0 < p then (acc1.1 + 10/100, acc1.2 ++ ["price_present"]) else acc1
    | none => acc1
  let acc3 :=
    match deal.posted_at with
    | some t =>
      let age_hours := pymax 0 ((now - t) / 3600)
      if age_hours ≤ 24 then (acc2.1 + 10/100, acc2.2 ++ ["fresh_<=24h"])
      else if age_hours ≤ 72 then (acc2.1 + 6/100, acc2.2 ++ ["fresh_<=72h"])
      else acc2
    | none => acc2
  (pymax 0 (pymin 1 acc3.1),
   if acc3.2 = [] then "heuristic" else String.intercalate ", " acc3.2)

/-- Behaviour of the external scoring strategy on one call, as seen by
`score_deal_ai`: the client may be unconfigured, the call may raise or
return unparsable output, or it may return a parsed (score, reason). -/
inductive ExtOutcome where
  | unconfigured : ExtOutcome
  | fault : ExtOutcome
  | ok : ℚ → String → ExtOutcome
  deriving Repr, DecidableEq

/-- `score_deal_ai` (src/main.py lines 150-220): the heuristic when no
client is configured, the clamped external result on success, and the
heuristic again when the external call raises anywhere in the `try`
block (src/main.py lines 219-220). -/
def score_deal_ai (deal : DealIngest) (now : ℚ) (ext : ExtOutcome) :
    ℚ × String :=
  match ext with
  | .unconfigured => heuristic deal now
  | .fault => heuristic deal now
  | .ok s r => (pymax 0 (pymin 1 s), r)

/-- The keywords of `keywords` that occur in the text blob of a deal:
the spec-side count used to restate the heuristic as a closed formula. -/
def triggered (deal : DealIngest) : List String :=
  keywords.filter (contains_kw (text_blob deal))

/-- Spec-side predicate: the price bonus of the heuristic fires. -/
def price_signal (deal : DealIngest) : Bool :=
  match deal.price with
  | some p => decide (0 < p)
  | none => false

/-- Spec-side recency bonus of the heuristic: 0.10 within 24 hours,
0.06 within 72 hours, otherwise 0. -/
def recency_bonus (deal : DealIngest) (now : ℚ) : ℚ :=
  match deal.posted_at with
  | some t =>
    let age_hours := pymax 0 ((now - t) / 3600)
    if age_hours ≤ 24 then 10/100
    else if age_hours ≤ 72 then 6/100
    else 0
  | none => 0

/-- Spec-side recency signal labels matching `recency_bonus`. -/
def recency_signals (deal : DealIngest) (now : ℚ) : List String :=
  match deal.posted_at with
  | some t =>
    let age_hours := pymax 0 ((now - t) / 3600)
    if age_hours ≤ 24 then ["fresh_<=24h"]
    else if age_hours ≤ 72 then ["fresh_<=72h"]
    else []
  | none => []

/-- Spec-side list of all triggered signals of the heuristic, in the
order the source appends them. -/
def signals (deal : DealIngest) (now : ℚ) : List String :=
  (triggered deal).map (fun kw => "keyword:" ++ kw) ++
  (if price_signal deal then ["price_present"] else []) ++
  recency_signals deal now

/-- Budget factor as the spec words it, amended only where the source
requires: the price must be present AND nonzero (Python float
truthiness), both bounds known with bmin ≤ price ≤ bmax for 1.0,
bmax known with price ≤ bmax for 0.6, and 0.3 otherwise. -/
def budget_factor_amended : Option ℚ → Option ℚ → Option ℚ → ℚ
  | some p, some lo, some hi =>
    if p ≠ 0 ∧ lo ≤ p ∧ p ≤ hi then 1
    else if p ≠ 0 ∧ p ≤ hi then 6/10
    else 3/10
  | some p, none, some hi => if p ≠ 0 ∧ p ≤ hi then 6/10 else 3/10
  | _, _, _ => 3/10

/-- Outcome of the per-buyer loop of the ingest sweep
(src/main.py lines 513-542): which buyers had a `matches` upsert
attempted, which of those writes succeeded, and which buyer
notifications were enqueued. -/
structure SweepResult where
  attempted : List Nat
  persisted : List Nat
  notified : List (Nat × String × ℚ)
  deriving Repr, DecidableEq

/-- The buyer loop of `deal_ingest_webhook` (src/main.py lines 513-542).
`ai` is the `score` returned by `score_deal_ai`, `t` the configured
`notify_threshold`, and `persistFails b` says whether the `matches`
upsert for buyer id `b` raises (the `try`/`except: pass` of lines
519-536).  A match with score ≤ 0 is skipped entirely (line 517). -/
def sweep (deal_row : DealRow) (now ai t : ℚ) (persistFails : Nat → Bool) :
    List BuyerRow → SweepResult
  | [] => ⟨[], [], []⟩
  | b :: rest =>
    let ms := (compute_match deal_row b now).1
    let r := sweep deal_row now ai t persistFails rest
    if ms ≤ 0 then r
    else
      { attempted := b.buyer_id :: r.attempted,
        persisted :=
          if persistFails b.buyer_id then r.persisted
          else b.buyer_id :: r.persisted,
        notified :=
          if t ≤ ai ∧ t ≤ ms then (b.buyer_id, b.email, ms) :: r.notified
          else r.notified }

/-- The valid category enum of the ingest endpoint
(src/main.py line 433). -/
def valid_categories : List String :=
  ["real_estate", "car", "wholesale", "luxury", "equipment"]

/-- Steps of one `deal_ingest_webhook` call, at the granularity the
temporal claims talk about. -/
inductive Ev where
  | validate | score | upsert | fetch | adminNotify | sweepRun | audit | dispatch
  deriving Repr, DecidableEq

/-- The order in which a fully successful ingest call performs its
steps (src/main.py lines 431-552). -/
def ingestOrder : List Ev :=
  [.validate, .score, .upsert, .fetch, .adminNotify, .sweepRun, .audit, .dispatch]

/-- HTTP-level outcome of one ingest call. -/
inductive Outcome where
  | badRequest
  | storageError
  | upsertFailed
  | transportError
  | ok (matched_notified : Nat)
  deriving Repr, DecidableEq

/-- Oracles for the effectful collaborators of one ingest call: the
external scoring strategy, each database operation, the buyer rows the
store returns, and the SMTP transport. -/
structure Oracles where
  ext : ExtOutcome
  upsertOk : Bool
  fetched : Option DealRow
  adminEnqOk : Bool
  buyersFetchOk : Bool
  buyers : List BuyerRow
  persistFails : Nat → Bool
  buyerEnqOk : Bool
  auditOk : Bool
  smtpConfigured : Bool
  smtpOk : Bool

/-- `deal_ingest_webhook` (src/main.py lines 431-552) as a trace of steps
plus an HTTP outcome.  Uncaught exceptions from database writes surface
as `storageError`; a `None` row after the upsert raises the explicit
"Deal upsert failed" 500 (line 490); an uncaught `smtplib` exception
from the final `send_queued_notifications` call (line 550) surfaces as
`transportError`.  A failing buyer-notification enqueue is modelled at
whole-sweep granularity: it yields `storageError` whenever some buyer
notification is due. -/
def ingest (p : DealIngest) (now t : ℚ) (o : Oracles) : List Ev × Outcome :=
  if p.category ∉ valid_categories then ([.validate], .badRequest)
  else
    let ai := (score_deal_ai p now o.ext).1
    if o.upsertOk = false then ([.validate, .score, .upsert], .storageError)
    else
      match o.fetched with
      | none => ([.validate, .score, .upsert, .fetch], .upsertFailed)
      | some deal_row =>
        if o.adminEnqOk = false then
          ([.validate, .score, .upsert, .fetch, .adminNotify], .storageError)
        else if o.buyersFetchOk = false then
          ([.validate, .score, .upsert, .fetch, .adminNotify], .storageError)
        else
          let sw := sweep deal_row now ai t o.persistFails o.buyers
          if o.buyerEnqOk = false ∧ sw.notified ≠ [] then
            ([.validate, .score, .upsert, .fetch, .adminNotify, .sweepRun],
             .storageError)
          else if o.auditOk = false then
            ([.validate, .score, .upsert, .fetch, .adminNotify, .sweepRun, .audit],
             .storageError)
          else if o.smtpConfigured = true ∧ o.smtpOk = false then
            (ingestOrder, .transportError)
          else (ingestOrder, .ok sw.notified.length)

/-- Derivation of a missing `source_uid` (src/main.py lines 436-437):
`str(abs(hash(payload.source_url)))`.  The CPython builtin `hash` on a
string depends on the per-process hash salt, so it is passed here as an
explicit function `pyHash` of the url; the trailing `str(...)` is
presentational and kept as the natural number. -/
def derive_source_uid (pyHash : String → Int) (url : String) : Nat :=
  (pyHash url).natAbs

/-- The dedupe key `(source, source_uid)` of the deals upsert
(src/main.py lines 441-448, 465); `source` defaults to "unknown". -/
def dedupe_key (source : Option String) (uid : Nat) : String × Nat :=
  (source.getD "unknown", uid)

/-- Deal row with price 0: the price is known, yet Python float
truthiness sends the budget factor to the 0.3 baseline. -/
def dealPriceZero : DealRow :=
  { category := some "car", country := none, region := none,
    price := some 0, posted_at := none }

/-- Buyer whose budget window [0, 100] contains the price 0. -/
def buyerZeroWindow : BuyerRow :=
  { buyer_id := 2, email := "z@example.com", countries := [], regions := [],
    categories := [], budget_min := some 0, budget_max := some 100 }

/-- Deal of the budget edge case in the spec: price 250000 against
budget_max 200000 with budget_min absent. -/
def dealEdge : DealRow :=
  { category := some "car", country := none, region := none,
    price := some 250000, posted_at := none }

/-- Buyer of the budget edge case: budget_min absent, budget_max 200000. -/
def buyerEdge : BuyerRow :=
  { buyer_id := 3, email := "e@example.com", countries := [], regions := [],
    categories := [], budget_min := none, budget_max := some 200000 }

/-- Deal built to score exactly 0.50 against `buyerHalf` at clock 48h
after posting: budget 0.6, location 0.6, category 0, recency 0.8. -/
def dealHalf : DealRow :=
  { category := some "car", country := some "US", region := some "CA",
    price := some 50, posted_at := some 0 }

/-- Buyer matching `dealHalf` on country only, with a budget window the
price undershoots and a category list missing the deal category. -/
def buyerHalf : BuyerRow :=
  { buyer_id := 4, email := "h@example.com", countries := ["US"],
    regions := ["NY"], categories := ["wholesale"],
    budget_min := some 100, budget_max := some 200 }

/-- Deal with a posted_at timestamp, used to show that the match score
depends on the wall clock. -/
def dealPosted : DealRow :=
  { category := none, country := none, region := none,
    price := none, posted_at := some 0 }

/-- Deal without a posted_at timestamp, used for the clock-independence
part of the purity claim. -/
def dealUnposted : DealRow :=
  { category := none, country := none, region := none,
    price := none, posted_at := none }

/-- A buyer with empty preference sets. -/
def buyerEmpty : BuyerRow :=
  { buyer_id := 5, email := "m@example.com", countries := [], regions := [],
    categories := [], budget_min := none, budget_max := none }

/-- A well-formed ingest payload used by the ingest-pipeline theorems. -/
def payloadValid : DealIngest :=
  { category := "wholesale", source := some "feed", source_url := "http://x",
    source_uid := some "u1", title := some "Lot", description := none,
    price := some 1000, posted_at := none }

/-- Oracles where every collaborator behaves: external scorer
unconfigured, all writes succeed, one active buyer, no SMTP. -/
def oraclesAllOk : Oracles :=
  { ext := .unconfigured, upsertOk := true,
    fetched := some dealHalf, adminEnqOk := true, buyersFetchOk := true,
    buyers := [buyerHalf], persistFails := fun _ => false,
    buyerEnqOk := true, auditOk := true,
    smtpConfigured := false, smtpOk := true }

/-- Oracles identical to `oraclesAllOk` except that the deals upsert
raises. -/
def oraclesUpsertDown : Oracles :=
  { oraclesAllOk with upsertOk := false }

/-- Oracles identical to `oraclesAllOk` except that SMTP is configured
and the transport raises. -/
def oraclesSmtpDown : Oracles :=
  { oraclesAllOk with smtpConfigured := true, smtpOk := false }

theorem le_pymax_right (a b : ℚ) : b ≤ pymax a b := by
  unfold pymax; split_ifs with h
  · exact h
  · exact le_refl b

theorem le_pymax_left (a b : ℚ) : a ≤ pymax a b := by
  unfold pymax; split_ifs with h
  · exact le_refl a
  · linarith [lt_of_not_le h]

theorem pymax_le {a b c : ℚ} (h1 : a ≤ c) (h2 : b ≤ c) : pymax a b ≤ c := by
  unfold pymax; split_ifs <;> assumption

theorem pymin_le_left (a b : ℚ) : pymin a b ≤ a := by
  unfold pymin; split_ifs with h
  · exact le_refl a
  · linarith [lt_of_not_le h]

theorem le_pymin {a b c : ℚ} (h1 : c ≤ a) (h2 : c ≤ b) : c ≤ pymin a b := by
  unfold pymin; split_ifs <;> assumption

theorem pymax_nonneg (x : ℚ) : 0 ≤ pymax 0 x := le_pymax_left 0 x

theorem clamp01_mem (x : ℚ) : 0 ≤ pymax 0 (pymin 1 x) ∧ pymax 0 (pymin 1 x) ≤ 1 :=
  ⟨pymax_nonneg _, pymax_le (by norm_num) (pymin_le_left 1 x)⟩

theorem compute_match_score_eq (d : DealRow) (b : BuyerRow) (now : ℚ) :
    (compute_match d b now).1 =
      pymax 0 (pymin 1
        (40/100 * (compute_match d b now).2.budget +
         30/100 * (compute_match d b now).2.location +
         20/100 * (compute_match d b now).2.category +
         10/100 * (compute_match d b now).2.recency)) := rfl

theorem compute_match_budget_lb (d : DealRow) (b : BuyerRow) (now : ℚ) :
    3/10 ≤ (compute_match d b now).2.budget := by
  simp only [compute_match]
  split_ifs <;> norm_num

theorem compute_match_location_bounds (d : DealRow) (b : BuyerRow) (now : ℚ) :
    0 ≤ (compute_match d b now).2.location := by
  simp only [compute_match]
  refine le_pymin (by norm_num) ?_
  split_ifs <;> norm_num

theorem compute_match_category_lb (d : DealRow) (b : BuyerRow) (now : ℚ) :
    0 ≤ (compute_match d b now).2.category := by
  simp only [compute_match]
  rcases d.category with _ | c
  · norm_num
  · dsimp only
    split_ifs <;> norm_num

theorem compute_match_recency_lb (d : DealRow) (b : BuyerRow) (now : ℚ) :
    4/10 ≤ (compute_match d b now).2.recency := by
  simp only [compute_match]
  rcases d.posted_at with _ | t
  · norm_num
  · dsimp only
    split_ifs <;> norm_num

theorem compute_match_score_lb (d : DealRow) (b : BuyerRow) (now : ℚ) :
    16/100 ≤ (compute_match d b now).1 := by
  rw [compute_match_score_eq]
  refine le_trans (le_pymin (by norm_num) ?_) (le_pymax_right 0 _)
  have hB := compute_match_budget_lb d b now
  have hL := compute_match_location_bounds d b now
  have hC := compute_match_category_lb d b now
  have hR := compute_match_recency_lb d b now
  nlinarith [hB, hL, hC, hR]

/-- C1: on the worked example (deal posted 10 hours before the call),
`compute_match` returns the final score 0.88 with factor values
budget 1.0, location 0.6, category 1.0, recency 1.0, and the fixed weight
table recorded in the breakdown. -/
theorem c1_matching_example :
    compute_match exampleDeal exampleBuyer (10 * 3600) =
      (88/100,
       { budget := 1, location := 6/10, category := 1, recency := 1,
         weights := [("budget", 40/100), ("location", 30/100),
                     ("category", 20/100), ("recency", 10/100)] }) ∧
    88/100 = (40/100 : ℚ) * 1 + 30/100 * (6/10) + 20/100 * 1 + 10/100 * 1 := by
  constructor
  · with_unfolding_all rfl
  · norm_num

theorem sweep_eq (d : DealRow) (now ai t : ℚ) (pf : Nat → Bool)
    (buyers : List BuyerRow) :
    sweep d now ai t pf buyers =
      { attempted := buyers.map (fun b => b.buyer_id),
        persisted := (buyers.map (fun b => b.buyer_id)).filter (fun i => ! pf i),
        notified := (buyers.filter (fun b =>
            decide (t ≤ ai) && decide (t ≤ (compute_match d b now).1))).map
          (fun b => (b.buyer_id, b.email, (compute_match d b now).1)) } := by
  induction buyers with
  | nil => rfl
  | cons b rest ih =>
    have h := compute_match_score_lb d b now
    simp only [sweep, List.map_cons, List.filter_cons]
    rw [if_neg (by linarith : ¬ (compute_match d b now).1 ≤ 0), ih]
    by_cases hp : pf b.buyer_id <;>
      by_cases hn : t ≤ ai ∧ t ≤ (compute_match d b now).1
    all_goals
      first
      | (obtain ⟨hn1, hn2⟩ := hn; simp [hp, hn1, hn2])
      | simp [hp, hn]

/-- C2 counterexample: a deal whose price is known and equal to 0, with a
buyer whose known budget window [0, 100] contains that price, gets a
budget factor of 0.3, not the 1.0 the claim requires: Python float
truthiness treats a zero price as missing. -/
theorem c2_counterexample :
    dealPriceZero.price = some 0 ∧
    buyerZeroWindow.budget_min = some 0 ∧
    buyerZeroWindow.budget_max = some 100 ∧
    ((0:ℚ) ≤ 0 ∧ (0:ℚ) ≤ 100) ∧
    (compute_match dealPriceZero buyerZeroWindow 0).2.budget = 3/10 ∧
    (3/10 : ℚ) ≠ 1 := by
  refine ⟨rfl, rfl, rfl, ⟨le_refl 0, by norm_num⟩, ?_, by norm_num⟩
  with_unfolding_all rfl

/-- C2 amended: the budget factor is 1.0 when the price is present AND
nonzero, both bounds are known and bmin ≤ price ≤ bmax; 0.6 when the
price is present and nonzero, bmax is known and price ≤ bmax; and 0.3 in
every other case, including a present-but-zero price.  The edge case
price 250000 against bmax 200000 with bmin absent still yields 0.3. -/
theorem c2_amended :
    (∀ (d : DealRow) (b : BuyerRow) (now : ℚ),
      (compute_match d b now).2.budget =
        budget_factor_amended d.price b.budget_min b.budget_max) ∧
    (compute_match dealEdge buyerEdge 0).2.budget = 3/10 := by
  constructor
  · intro d b now
    obtain ⟨_, _, _, pr, _⟩ := d
    obtain ⟨_, _, _, _, _, bmn, bmx⟩ := b
    simp only [compute_match, budget_factor_amended]
    rcases pr with _ | p <;> rcases bmn with _ | lo <;> rcases bmx with _ | hi <;>
      simp [truthyQ]
  · with_unfolding_all rfl

/-- C7 counterexample: `compute_match` reads the wall clock, so the same
deal row and buyer row produce score 0.22 when the deal is 10 hours old
and 0.18 when it is 100 hours old: the result is not a function of the
(deal, buyer) pair alone. -/
theorem c7_counterexample :
    (compute_match dealPosted buyerEmpty (10 * 3600)).1 = 22/100 ∧
    (compute_match dealPosted buyerEmpty (100 * 3600)).1 = 18/100 ∧
    (22/100 : ℚ) ≠ 18/100 := by
  refine ⟨?_, ?_, by norm_num⟩ <;> with_unfolding_all rfl

/-- C7 amended: `compute_match` is a deterministic pure function of the
(deal, buyer, clock) triple; when the deal has no usable posted_at
timestamp the result does not depend on the clock at all, so two
invocations at different times agree. -/
theorem c7_amended :
    ∀ (d : DealRow) (b : BuyerRow) (t1 t2 : ℚ), d.posted_at = none →
      compute_match d b t1 = compute_match d b t2 := by
  intro d b t1 t2 h
  obtain ⟨cat, cty, rgn, pr, pa⟩ := d
  dsimp only at h
  subst h
  rfl

theorem c7_amended_witness :
    dealUnposted.posted_at = none ∧
    compute_match dealUnposted buyerEmpty 0 =
      compute_match dealUnposted buyerEmpty 12345 :=
  ⟨rfl, c7_amended dealUnposted buyerEmpty 0 12345 rfl⟩

/-- C4: a buyer notification is enqueued during the sweep exactly for the
buyers whose match score and the deal ai score both meet the threshold;
and the concrete match scoring 0.50 against threshold 0.65 enqueues
nothing even with ai score 1.0. -/
theorem c4_notification_gating :
    (∀ (d : DealRow) (now ai t : ℚ) (pf : Nat → Bool) (buyers : List BuyerRow),
      (sweep d now ai t pf buyers).notified =
        (buyers.filter (fun b =>
            decide (t ≤ ai) && decide (t ≤ (compute_match d b now).1))).map
          (fun b => (b.buyer_id, b.email, (compute_match d b now).1))) ∧
    (compute_match dealHalf buyerHalf (48 * 3600)).1 = 50/100 ∧
    (sweep dealHalf (48 * 3600) 1 (65/100) (fun _ => false) [buyerHalf]).notified
      = [] := by
  refine ⟨fun d now ai t pf buyers => by rw [sweep_eq], ?_, ?_⟩ <;>
    with_unfolding_all rfl

/-- C9: a failing per-buyer Match persist is isolated: the attempted and
notified lists are the same as in a failure-free sweep, and exactly the
non-failing attempts are persisted, so every other buyer is still
matched, persisted and considered for notification. -/
theorem c9_per_buyer_isolation :
    ∀ (d : DealRow) (now ai t : ℚ) (pf : Nat → Bool) (buyers : List BuyerRow),
      (sweep d now ai t pf buyers).notified =
        (sweep d now ai t (fun _ => false) buyers).notified ∧
      (sweep d now ai t pf buyers).attempted =
        (sweep d now ai t (fun _ => false) buyers).attempted ∧
      (sweep d now ai t pf buyers).persisted =
        ((sweep d now ai t pf buyers).attempted).filter (fun i => ! pf i) := by
  intro d now ai t pf buyers
  simp only [sweep_eq]
  exact ⟨trivial, trivial, trivial⟩

/-- C10: the budget factor is never below 0.3 and the recency factor
never below 0.4, so every match score is at least 0.16 and in particular
strictly positive; hence the score ≤ 0 skip in the ingest sweep never
fires and a Match persist is attempted for every active buyer. -/
theorem c10_score_positive :
    (∀ (d : DealRow) (b : BuyerRow) (now : ℚ),
      16/100 ≤ (compute_match d b now).1) ∧
    (∀ (d : DealRow) (b : BuyerRow) (now : ℚ),
      0 < (compute_match d b now).1) ∧
    (∀ (d : DealRow) (now ai t : ℚ) (pf : Nat → Bool) (buyers : List BuyerRow),
      (sweep d now ai t pf buyers).attempted =
        buyers.map (fun b => b.buyer_id)) := by
  refine ⟨compute_match_score_lb,
    fun d b now => lt_of_lt_of_le (by norm_num) (compute_match_score_lb d b now),
    fun d now ai t pf buyers => by rw [sweep_eq]⟩

theorem foldl_kwStep (blob : String) (kws : List String) (s : ℚ)
    (rs : List String) :
    kws.foldl (kwStep blob) (s, rs) =
      (s + 8/100 * ((kws.filter (contains_kw blob)).length : ℚ),
       rs ++ (kws.filter (contains_kw blob)).map (fun kw => "keyword:" ++ kw)) := by
  induction kws generalizing s rs with
  | nil => simp
  | cons k ks ih =>
    simp only [List.foldl_cons, List.filter_cons, kwStep]
    by_cases h : contains_kw blob k
    · rw [if_pos h, ih, h]
      simp only [if_true, List.length_cons, List.map_cons, Prod.mk.injEq]
      constructor
      · push_cast; ring
      · simp [List.append_assoc]
    · rw [if_neg h, ih]
      simp [h]

/-- C3: the local fallback scorer equals the clamped closed formula
0.30 + 0.08 per triggered keyword + 0.10 for a positive price + the
recency bonus, its reason is the comma-joined signal list or the literal
"heuristic", and both scoring strategies stay within [0, 1] on every
input. -/
theorem c3_heuristic_formula_and_bounds :
    (∀ (deal : DealIngest) (now : ℚ),
      (heuristic deal now).1 =
        pymax 0 (pymin 1 (30/100 + 8/100 * ((triggered deal).length : ℚ) +
          (if price_signal deal then 10/100 else 0) +
          recency_bonus deal now)) ∧
      (heuristic deal now).2 =
        (if signals deal now = [] then "heuristic"
         else String.intercalate ", " (signals deal now))) ∧
    (∀ (deal : DealIngest) (now : ℚ),
      0 ≤ (heuristic deal now).1 ∧ (heuristic deal now).1 ≤ 1) ∧
    (∀ (deal : DealIngest) (now : ℚ) (ext : ExtOutcome),
      0 ≤ (score_deal_ai deal now ext).1 ∧ (score_deal_ai deal now ext).1 ≤ 1) := by
  have formula : ∀ (deal : DealIngest) (now : ℚ),
      (heuristic deal now).1 =
        pymax 0 (pymin 1 (30/100 + 8/100 * ((triggered deal).length : ℚ) +
          (if price_signal deal then 10/100 else 0) +
          recency_bonus deal now)) ∧
      (heuristic deal now).2 =
        (if signals deal now = [] then "heuristic"
         else String.intercalate ", " (signals deal now)) := by
    intro deal now
    obtain ⟨c, so, url, uid, ti, de, pr, pa⟩ := deal
    simp only [heuristic, signals, triggered, price_signal, recency_bonus,
      recency_signals, foldl_kwStep, List.nil_append]
    rcases pr with _ | p <;> rcases pa with _ | t0
    · simp
    · dsimp only
      by_cases h1 : pymax 0 ((now - t0) / 3600) ≤ 24
      · simp [h1, List.append_assoc]
      · by_cases h2 : pymax 0 ((now - t0) / 3600) ≤ 72 <;>
          simp [h1, h2, List.append_assoc]
    · dsimp only
      by_cases hp : 0 < p <;> simp [hp, List.append_assoc]
    · dsimp only
      by_cases hp : 0 < p <;>
        by_cases h1 : pymax 0 ((now - t0) / 3600) ≤ 24
      · simp [hp, h1, List.append_assoc]
      · by_cases h2 : pymax 0 ((now - t0) / 3600) ≤ 72 <;>
          simp [hp, h1, h2, List.append_assoc]
      · simp [hp, h1, List.append_assoc]
      · by_cases h2 : pymax 0 ((now - t0) / 3600) ≤ 72 <;>
          simp [hp, h1, h2, List.append_assoc]
  have bounds : ∀ (deal : DealIngest) (now : ℚ),
      0 ≤ (heuristic deal now).1 ∧ (heuristic deal now).1 ≤ 1 := by
    intro deal now
    rw [(formula deal now).1]
    exact clamp01_mem _
  refine ⟨formula, bounds, ?_⟩
  intro deal now ext
  cases ext with
  | unconfigured => exact bounds deal now
  | fault => exact bounds deal now
  | ok sc r => exact clamp01_mem sc

theorem heuristic_bounds (deal : DealIngest) (now : ℚ) :
    0 ≤ (heuristic deal now).1 ∧ (heuristic deal now).1 ≤ 1 := clamp01_mem _

theorem score_deal_ai_bounds (deal : DealIngest) (now : ℚ) (ext : ExtOutcome) :
    0 ≤ (score_deal_ai deal now ext).1 ∧ (score_deal_ai deal now ext).1 ≤ 1 := by
  cases ext with
  | unconfigured => exact heuristic_bounds deal now
  | fault => exact heuristic_bounds deal now
  | ok sc r => exact clamp01_mem sc

theorem ingest_outcome_cases (p : DealIngest) (now t : ℚ) (o : Oracles) :
    ((ingest p now t o).2 = .badRequest ∧ p.category ∉ valid_categories) ∨
    ((ingest p now t o).2 = .storageError ∧
      (o.upsertOk = false ∨ o.adminEnqOk = false ∨ o.buyersFetchOk = false ∨
       o.buyerEnqOk = false ∨ o.auditOk = false)) ∨
    ((ingest p now t o).2 = .upsertFailed ∧ o.fetched = none) ∨
    ((ingest p now t o).2 = .transportError ∧
      o.smtpConfigured = true ∧ o.smtpOk = false) ∨
    (∃ n, (ingest p now t o).2 = .ok n) := by
  unfold ingest
  dsimp only
  split
  next hv => exact Or.inl ⟨rfl, hv⟩
  next hv =>
    split
    next hu => exact Or.inr (Or.inl ⟨rfl, Or.inl hu⟩)
    next hu =>
      split
      next heq => exact Or.inr (Or.inr (Or.inl ⟨rfl, heq⟩))
      next dr heq =>
        split
        next ha => exact Or.inr (Or.inl ⟨rfl, Or.inr (Or.inl ha)⟩)
        next ha =>
          split
          next hb => exact Or.inr (Or.inl ⟨rfl, Or.inr (Or.inr (Or.inl hb))⟩)
          next hb =>
            split
            next he => exact Or.inr (Or.inl ⟨rfl, Or.inr (Or.inr (Or.inr (Or.inl he.1)))⟩)
            next he =>
              split
              next hau => exact Or.inr (Or.inl ⟨rfl, Or.inr (Or.inr (Or.inr (Or.inr hau)))⟩)
              next hau =>
                split
                next hs => exact Or.inr (Or.inr (Or.inr (Or.inl ⟨rfl, hs.1, hs.2⟩)))
                next hs => exact Or.inr (Or.inr (Or.inr (Or.inr ⟨_, rfl⟩)))

/-- C5 counterexample: on a valid payload whose deals upsert raises, the
ingest trace is Validate, Score, Upsert: the scoring engine has already
run both before the upsert and despite the upsert failing, contradicting
the claimed Validate-Upsert-Score order and the claim that an upsert
failure aborts before any scoring. -/
theorem c5_counterexample :
    (ingest payloadValid 0 (65/100) oraclesUpsertDown).1 =
      [.validate, .score, .upsert] ∧
    (ingest payloadValid 0 (65/100) oraclesUpsertDown).2 = .storageError ∧
    oraclesUpsertDown.upsertOk = false ∧
    Ev.score ∈ (ingest payloadValid 0 (65/100) oraclesUpsertDown).1 := by
  have h1 : (ingest payloadValid 0 (65/100) oraclesUpsertDown).1 =
      [.validate, .score, .upsert] := by with_unfolding_all rfl
  exact ⟨h1, by with_unfolding_all rfl, rfl, by rw [h1]; simp⟩

/-- C5 amended: every ingest call performs a prefix of the order
Validate, Score, Upsert, Fetch, admin Notify, Sweep (with buyer
notifications inside), Audit, Dispatch; scoring always precedes the
upsert, and when the upsert fails on a valid payload the call aborts
before any matching has run, although scoring has already run. -/
theorem c5_amended :
    (∀ (p : DealIngest) (now t : ℚ) (o : Oracles),
      ∃ n, (ingest p now t o).1 = ingestOrder.take n) ∧
    (∀ (p : DealIngest) (now t : ℚ) (o : Oracles),
      p.category ∈ valid_categories → o.upsertOk = false →
        (ingest p now t o).1 = [.validate, .score, .upsert] ∧
        (ingest p now t o).2 = .storageError ∧
        Ev.sweepRun ∉ (ingest p now t o).1 ∧
        Ev.score ∈ (ingest p now t o).1) := by
  constructor
  · intro p now t o
    unfold ingest
    dsimp only
    split
    · exact ⟨1, rfl⟩
    · split
      · exact ⟨3, rfl⟩
      · split
        · exact ⟨4, rfl⟩
        · split
          · exact ⟨5, rfl⟩
          · split
            · exact ⟨5, rfl⟩
            · split
              · exact ⟨6, rfl⟩
              · split
                · exact ⟨7, rfl⟩
                · split
                  · exact ⟨8, rfl⟩
                  · exact ⟨8, rfl⟩
  · intro p now t o hv hu
    unfold ingest
    rw [if_neg (not_not_intro hv)]
    dsimp only
    rw [if_pos hu]
    exact ⟨rfl, rfl, by simp, by simp⟩

theorem c5_amended_witness :
    (ingest payloadValid 0 (65/100) oraclesUpsertDown).1 =
      [.validate, .score, .upsert] ∧
    (ingest payloadValid 0 (65/100) oraclesUpsertDown).2 = .storageError ∧
    Ev.sweepRun ∉ (ingest payloadValid 0 (65/100) oraclesUpsertDown).1 ∧
    Ev.score ∈ (ingest payloadValid 0 (65/100) oraclesUpsertDown).1 :=
  c5_amended.2 payloadValid 0 (65/100) oraclesUpsertDown
    (by with_unfolding_all decide) rfl

/-- C6 counterexample: with a valid payload, every storage write healthy
and SMTP configured but failing, the ingest call surfaces a transport
error: a dispatch degradation does surface as a failure of the ingest
call, against the claim that failures are limited to malformed input and
storage unavailability. -/
theorem c6_counterexample :
    payloadValid.category ∈ valid_categories ∧
    oraclesSmtpDown.upsertOk = true ∧
    oraclesSmtpDown.adminEnqOk = true ∧
    oraclesSmtpDown.buyersFetchOk = true ∧
    oraclesSmtpDown.buyerEnqOk = true ∧
    oraclesSmtpDown.auditOk = true ∧
    (oraclesSmtpDown.fetched).isSome = true ∧
    (ingest payloadValid 0 (65/100) oraclesSmtpDown).2 = .transportError := by
  refine ⟨by with_unfolding_all decide, rfl, rfl, rfl, rfl, rfl, rfl, ?_⟩
  with_unfolding_all rfl

/-- C6 amended: an ingest call fails only for malformed input (bad
category), storage unavailability (a failing write or a missing row after
the upsert), or an SMTP transport failure during the final opportunistic
dispatch; every fault of the external scoring strategy is absorbed by the
local heuristic and the scoring result is always a valid score in [0, 1]. -/
theorem c6_amended :
    (∀ (p : DealIngest) (now t : ℚ) (o : Oracles),
      ((ingest p now t o).2 = .badRequest ↔ p.category ∉ valid_categories)) ∧
    (∀ (p : DealIngest) (now t : ℚ) (o : Oracles),
      (ingest p now t o).2 = .storageError →
        o.upsertOk = false ∨ o.adminEnqOk = false ∨ o.buyersFetchOk = false ∨
        o.buyerEnqOk = false ∨ o.auditOk = false) ∧
    (∀ (p : DealIngest) (now t : ℚ) (o : Oracles),
      (ingest p now t o).2 = .upsertFailed → o.fetched = none) ∧
    (∀ (p : DealIngest) (now t : ℚ) (o : Oracles),
      (ingest p now t o).2 = .transportError →
        o.smtpConfigured = true ∧ o.smtpOk = false) ∧
    (∀ (deal : DealIngest) (now : ℚ),
      score_deal_ai deal now .fault = heuristic deal now ∧
      score_deal_ai deal now .unconfigured = heuristic deal now) ∧
    (∀ (deal : DealIngest) (now : ℚ) (ext : ExtOutcome),
      0 ≤ (score_deal_ai deal now ext).1 ∧ (score_deal_ai deal now ext).1 ≤ 1) := by
  refine ⟨?_, ?_, ?_, ?_, fun deal now => ⟨rfl, rfl⟩, score_deal_ai_bounds⟩
  · intro p now t o
    constructor
    · intro h
      rcases ingest_outcome_cases p now t o with
        ⟨h', hv⟩ | ⟨h', _⟩ | ⟨h', _⟩ | ⟨h', _⟩ | ⟨n, h'⟩ <;>
        first
        | exact hv
        | exact Outcome.noConfusion (h'.symm.trans h)
    · intro hv
      unfold ingest
      rw [if_pos hv]
  · intro p now t o h
    rcases ingest_outcome_cases p now t o with
      ⟨h', _⟩ | ⟨h', hs⟩ | ⟨h', _⟩ | ⟨h', _⟩ | ⟨n, h'⟩
    · exact Outcome.noConfusion (h'.symm.trans h)
    · exact hs
    · exact Outcome.noConfusion (h'.symm.trans h)
    · exact Outcome.noConfusion (h'.symm.trans h)
    · exact Outcome.noConfusion (h'.symm.trans h)
  · intro p now t o h
    rcases ingest_outcome_cases p now t o with
      ⟨h', _⟩ | ⟨h', _⟩ | ⟨h', hf⟩ | ⟨h', _⟩ | ⟨n, h'⟩
    · exact Outcome.noConfusion (h'.symm.trans h)
    · exact Outcome.noConfusion (h'.symm.trans h)
    · exact hf
    · exact Outcome.noConfusion (h'.symm.trans h)
    · exact Outcome.noConfusion (h'.symm.trans h)
  · intro p now t o h
    rcases ingest_outcome_cases p now t o with
      ⟨h', _⟩ | ⟨h', _⟩ | ⟨h', _⟩ | ⟨h', hs⟩ | ⟨n, h'⟩
    · exact Outcome.noConfusion (h'.symm.trans h)
    · exact Outcome.noConfusion (h'.symm.trans h)
    · exact Outcome.noConfusion (h'.symm.trans h)
    · exact hs
    · exact Outcome.noConfusion (h'.symm.trans h)

theorem c6_amended_witness :
    oraclesSmtpDown.smtpConfigured = true ∧ oraclesSmtpDown.smtpOk = false :=
  c6_amended.2.2.2.1 payloadValid 0 (65/100) oraclesSmtpDown
    (by with_unfolding_all rfl)

/-- C8: the derived source_uid of a url agrees across two processes iff
the builtin string hash, which CPython salts per process, agrees in
absolute value on that url; so the (source, source_uid) dedupe key
collides across re-ingestions exactly when the salted hashes agree, and
nothing in the code makes that hash stable across processes. -/
theorem c8_uid_collision_iff_hash_agrees :
    ∀ (h1 h2 : String → Int) (url : String) (src : Option String),
      (dedupe_key src (derive_source_uid h1 url) =
         dedupe_key src (derive_source_uid h2 url) ↔
       (h1 url).natAbs = (h2 url).natAbs) := by
  intro h1 h2 url src
  simp [dedupe_key, derive_source_uid]

end VortexAI
